import Mathlib

/-!
Shallow embedding of `src/public/bank.rs`, a minimal Anchor bank program:
one persistent `BankAccount { balance: u64 }` and four entry points
(`initialize`, `deposit`, `withdraw`, `get_balance`), each returning
`Result<()>` and emitting a structured event plus a log line.

`u64` values are modelled as `Nat` kept below `2 ^ 64`. The source's
`balance += amount` in `deposit` is an unchecked `u64` addition, which in
the deployed release build wraps modulo `2 ^ 64`; the embedding therefore
takes the sum modulo `2 ^ 64`. Each entry point is modelled as a pure
function from the signer key, the account state and the scalar argument to
`Except ErrorCode (new state, event, log line)`; a failing return carries
no event and no log, matching the host's rollback of everything on error.
-/

namespace Bank

/-- The modulus of `u64` arithmetic: `2 ^ 64`. -/
def U64_MOD : Nat := 2 ^ 64

/-- A Solana public key (32 bytes). The program uses it only as an opaque
attribution value, so it is modelled as a `Nat`. -/
abbrev Pubkey := Nat

/-- `#[account] pub struct BankAccount { pub balance: u64 }`: the persistent
per-user state, a single `u64` balance. -/
structure BankAccount where
  balance : Nat
deriving Repr, DecidableEq

/-- `#[event] pub struct DepositEvent { owner: Pubkey, amount: u64, new_balance: u64 }`. -/
structure DepositEvent where
  owner : Pubkey
  amount : Nat
  new_balance : Nat
deriving Repr, DecidableEq

/-- `#[event] pub struct WithdrawEvent { owner: Pubkey, amount: u64, new_balance: u64 }`. -/
structure WithdrawEvent where
  owner : Pubkey
  amount : Nat
  new_balance : Nat
deriving Repr, DecidableEq

/-- `#[event] pub struct GetBalanceEvent { owner: Pubkey, balance: u64 }`. -/
structure GetBalanceEvent where
  owner : Pubkey
  balance : Nat
deriving Repr, DecidableEq

/-- `#[error_code] pub enum ErrorCode`: the single program-defined error. -/
inductive ErrorCode where
  | InsufficientBalance
deriving Repr, DecidableEq

/-- The `#[msg("...")]` text attached to each `ErrorCode` variant. -/
def ErrorCode.msg : ErrorCode → String
  | ErrorCode.InsufficientBalance => "Insufficient balance to complete the transaction."

/-- The `msg!` line written by `deposit`. -/
def depositLog (amount new_balance : Nat) : String :=
  "Deposited " ++ toString amount ++ " into the account. New balance: "
    ++ toString new_balance

/-- The `msg!` line written by `withdraw`. -/
def withdrawLog (amount new_balance : Nat) : String :=
  "Withdrew " ++ toString amount ++ " from the account. New balance: "
    ++ toString new_balance

/-- The `msg!` line written by `get_balance`. -/
def getBalanceLog (balance : Nat) : String :=
  "Account balance: " ++ toString balance

/-- The `msg!` line written by `initialize`. -/
def initLog : String :=
  "Bank account initialized with balance: 0"

/-- `pub fn deposit(ctx: Context<Deposit>, amount: u64) -> Result<()>`:
`bank_account.balance += amount` (unchecked `u64` addition, wrapping modulo
`2 ^ 64` in the deployed build), then `emit!(DepositEvent { owner: signer.key(),
amount, new_balance })`, the log line, and `Ok(())`. There is no failure path. -/
def deposit (signer : Pubkey) (acct : BankAccount) (amount : Nat) :
    Except ErrorCode (BankAccount × DepositEvent × String) :=
  let new_balance := (acct.balance + amount) % U64_MOD
  Except.ok (⟨new_balance⟩, ⟨signer, amount, new_balance⟩, depositLog amount new_balance)

/-- `pub fn withdraw(ctx: Context<Withdraw>, amount: u64) -> Result<()>`:
if `bank_account.balance < amount`, return `Err(ErrorCode::InsufficientBalance)`
before any mutation; otherwise `balance -= amount`, emit
`WithdrawEvent { owner: signer.key(), amount, new_balance }`, write the log
line and return `Ok(())`. -/
def withdraw (signer : Pubkey) (acct : BankAccount) (amount : Nat) :
    Except ErrorCode (BankAccount × WithdrawEvent × String) :=
  if acct.balance < amount then
    Except.error ErrorCode.InsufficientBalance
  else
    let new_balance := acct.balance - amount
    Except.ok (⟨new_balance⟩, ⟨signer, amount, new_balance⟩, withdrawLog amount new_balance)

/-- `pub fn get_balance(ctx: Context<GetBalance>) -> Result<()>`: reads the
account through an immutable borrow (the account set marks it read-only),
emits `GetBalanceEvent { owner: signer.key(), balance }`, writes the log line
and returns `Ok(())`. The returned account is the input account, unchanged. -/
def get_balance (signer : Pubkey) (acct : BankAccount) :
    Except ErrorCode (BankAccount × GetBalanceEvent × String) :=
  Except.ok (acct, ⟨signer, acct.balance⟩, getBalanceLog acct.balance)

/-- `pub fn initialize(ctx: Context<Initialize>) -> Result<()>`:
`bank_account.balance = 0`, the log line, `Ok(())`. The core originates no
failure. (The Rust name `initialize` is shortened here.) -/
def initialize_account (acct : BankAccount) :
    Except ErrorCode (BankAccount × String) :=
  Except.ok (⟨0⟩, initLog)

/-- One entry-point invocation, for reasoning about call sequences. -/
inductive Op where
  | init
  | deposit (amount : Nat)
  | withdraw (amount : Nat)
  | getBalance
deriving Repr, DecidableEq

/-- One on-chain invocation as the host executes it: on `Ok` the mutation is
persisted; on any failing return the host rolls every mutation back, so the
account is unchanged. -/
def step (signer : Pubkey) (acct : BankAccount) : Op → BankAccount
  | Op.init =>
    match initialize_account acct with
    | Except.ok (a, _) => a
    | Except.error _ => acct
  | Op.deposit amount =>
    match deposit signer acct amount with
    | Except.ok (a, _, _) => a
    | Except.error _ => acct
  | Op.withdraw amount =>
    match withdraw signer acct amount with
    | Except.ok (a, _, _) => a
    | Except.error _ => acct
  | Op.getBalance =>
    match get_balance signer acct with
    | Except.ok (a, _, _) => a
    | Except.error _ => acct

/-- A sequence of invocations against one account. -/
def run (signer : Pubkey) (acct : BankAccount) (ops : List Op) : BankAccount :=
  ops.foldl (step signer) acct

/-- Whether an entry-point call returned `Ok`. -/
def isOkCall {α : Type} (r : Except ErrorCode α) : Bool :=
  match r with
  | Except.ok _ => true
  | Except.error _ => false

/-- Every single invocation keeps the balance below `2 ^ 64`: a deposit
reduces modulo `2 ^ 64`, a withdrawal only subtracts, the others copy or
zero the balance. -/
theorem step_balance_lt (signer : Pubkey) (acct : BankAccount) (op : Op)
    (h : acct.balance < U64_MOD) : (step signer acct op).balance < U64_MOD := by
  have hpos : 0 < U64_MOD := by norm_num [U64_MOD]
  cases op with
  | init => simpa [step, initialize_account] using hpos
  | deposit amount =>
    simpa [step, deposit] using Nat.mod_lt _ hpos
  | withdraw amount =>
    by_cases hlt : acct.balance < amount
    · simpa [step, withdraw, hlt] using h
    · simp only [step, withdraw, hlt, if_false]
      exact lt_of_le_of_lt (Nat.sub_le _ _) h
  | getBalance => simpa [step, get_balance] using h

/-- The `u64` range is preserved along every sequence of invocations. -/
theorem run_balance_lt (signer : Pubkey) (acct : BankAccount) (ops : List Op)
    (h : acct.balance < U64_MOD) : (run signer acct ops).balance < U64_MOD := by
  induction ops generalizing acct with
  | nil => exact h
  | cons op ops ih => exact ih (step signer acct op) (step_balance_lt signer acct op h)

/-- C1. The claim says `deposit(a)` fails with an arithmetic-overflow error
when `b + a` exceeds `2 ^ 64 - 1`, leaving the balance at `b` and emitting no
event. The source's unchecked `+=` does the opposite: at balance `2 ^ 64 - 1`
and amount `1` the call returns `Ok`, wraps the balance to `0`, and emits a
`DepositEvent` with `new_balance = 0`. -/
theorem deposit_overflow_returns_ok :
    Bank.deposit 0 ⟨Bank.U64_MOD - 1⟩ 1 =
      Except.ok (⟨0⟩, ⟨0, 1, 0⟩, Bank.depositLog 1 0) := by
  rfl

/-- C2. `withdraw(a)` at balance `b` fails exactly when `b < a`; on failure
the error is `InsufficientBalance` with message "Insufficient balance to
complete the transaction.", the persisted balance is unchanged and no
`WithdrawEvent` is returned; otherwise it succeeds with final balance `b - a`. -/
theorem withdraw_fails_iff_insufficient (s : Bank.Pubkey) (b a : Nat) :
    (b < a → Bank.withdraw s ⟨b⟩ a = Except.error Bank.ErrorCode.InsufficientBalance
      ∧ Bank.step s ⟨b⟩ (Bank.Op.withdraw a) = ⟨b⟩)
    ∧ (¬ b < a → Bank.withdraw s ⟨b⟩ a =
        Except.ok (⟨b - a⟩, ⟨s, a, b - a⟩, Bank.withdrawLog a (b - a)))
    ∧ Bank.ErrorCode.msg Bank.ErrorCode.InsufficientBalance =
        "Insufficient balance to complete the transaction." := by
  refine ⟨fun h => ?_, fun h => ?_, rfl⟩
  · constructor
    · simp [Bank.withdraw, h]
    · simp [Bank.step, Bank.withdraw, h]
  · simp [Bank.withdraw, h]

/-- C3. The `u64` range holds in every reachable state (see
`Bank.run_balance_lt`), but the claim's second half — that no successful
operation ever wraps the balance around `2 ^ 64` — fails: the state with
balance `2 ^ 64 - 1` is reachable (initialize, then deposit `2 ^ 64 - 1`),
and from it the call `deposit 1` returns `Ok` while the persisted balance
wraps to `0`. -/
theorem run_deposit_wraps :
    Bank.run 0 ⟨0⟩ [Bank.Op.init, Bank.Op.deposit (Bank.U64_MOD - 1), Bank.Op.deposit 1]
      = ⟨0⟩
    ∧ Bank.isOkCall (Bank.deposit 0 ⟨Bank.U64_MOD - 1⟩ 1) = true := by
  constructor <;> rfl

/-- C4. The claim says a successful `deposit(a)` leaves exactly `b + a`. At
balance `2 ^ 64 - 1` and amount `1` the call succeeds, yet the persisted
balance is `0`, not `b + a = 2 ^ 64`. -/
theorem deposit_success_not_exact_sum :
    Bank.isOkCall (Bank.deposit 0 ⟨Bank.U64_MOD - 1⟩ 1) = true
    ∧ Bank.step 0 ⟨Bank.U64_MOD - 1⟩ (Bank.Op.deposit 1)
        ≠ ⟨Bank.U64_MOD - 1 + 1⟩ := by
  constructor
  · rfl
  · intro h
    have : (0 : Nat) = Bank.U64_MOD - 1 + 1 := congrArg Bank.BankAccount.balance h
    simp [Bank.U64_MOD] at this

/-- C5. For every invocation: whenever `deposit`, `withdraw` or `get_balance`
returns `Ok`, the emitted event's `owner` is the signer key passed in, the
`new_balance` of the `DepositEvent`/`WithdrawEvent` equals the balance
persisted by the call, and the `balance` of the `GetBalanceEvent` equals the
stored balance. Each entry point is covered on its own, over its whole
success domain. -/
theorem event_fields_consistent (s : Bank.Pubkey) (acct : Bank.BankAccount)
    (amt : Nat) :
    (∀ aD evD logD, Bank.deposit s acct amt = Except.ok (aD, evD, logD) →
        evD.owner = s ∧ evD.new_balance = aD.balance)
    ∧ (∀ aW evW logW, Bank.withdraw s acct amt = Except.ok (aW, evW, logW) →
        evW.owner = s ∧ evW.new_balance = aW.balance)
    ∧ (∀ aG evG logG, Bank.get_balance s acct = Except.ok (aG, evG, logG) →
        evG.owner = s ∧ evG.balance = aG.balance) := by
  refine ⟨?_, ?_, ?_⟩
  · intro aD evD logD hD
    simp only [Bank.deposit, Except.ok.injEq, Prod.mk.injEq] at hD
    obtain ⟨hDa, hDe, -⟩ := hD
    subst hDe
    subst hDa
    exact ⟨rfl, rfl⟩
  · intro aW evW logW hW
    by_cases hlt : acct.balance < amt
    · simp [Bank.withdraw, hlt] at hW
    · simp only [Bank.withdraw, hlt, if_false, Except.ok.injEq, Prod.mk.injEq] at hW
      obtain ⟨hWa, hWe, -⟩ := hW
      subst hWe
      subst hWa
      exact ⟨rfl, rfl⟩
  · intro aG evG logG hG
    simp only [Bank.get_balance, Except.ok.injEq, Prod.mk.injEq] at hG
    obtain ⟨hGa, hGe, -⟩ := hG
    subst hGe
    subst hGa
    exact ⟨rfl, rfl⟩

/-- C6. `get_balance` never fails and changes no state: it returns `Ok`,
the returned account is the input account, and the `GetBalanceEvent` carries
the signer key and the stored balance. -/
theorem get_balance_pure (s : Bank.Pubkey) (acct : Bank.BankAccount) :
    Bank.get_balance s acct =
      Except.ok (acct, ⟨s, acct.balance⟩, Bank.getBalanceLog acct.balance) := by
  rfl

/-- C7. Amount `0` is an identity: at any `u64` balance `b`, `deposit 0` and
`withdraw 0` both succeed, emit their event with `amount = 0` and
`new_balance = b`, and persist balance `b`. -/
theorem zero_amount_identity (s : Bank.Pubkey) (b : Nat) (h : b < Bank.U64_MOD) :
    Bank.deposit s ⟨b⟩ 0 = Except.ok (⟨b⟩, ⟨s, 0, b⟩, Bank.depositLog 0 b)
    ∧ Bank.withdraw s ⟨b⟩ 0 = Except.ok (⟨b⟩, ⟨s, 0, b⟩, Bank.withdrawLog 0 b) := by
  constructor
  · simp [Bank.deposit, Nat.mod_eq_of_lt h]
  · simp [Bank.withdraw]

/-- C7 witness at signer `7`, balance `5`. -/
theorem zero_amount_identity_witness :
    Bank.deposit 7 ⟨5⟩ 0 = Except.ok (⟨5⟩, ⟨7, 0, 5⟩, Bank.depositLog 0 5)
    ∧ Bank.withdraw 7 ⟨5⟩ 0 = Except.ok (⟨5⟩, ⟨7, 0, 5⟩, Bank.withdrawLog 0 5) :=
  zero_amount_identity 7 5 (by norm_num [Bank.U64_MOD])

/-- C8. Withdrawing exactly the full balance succeeds and persists balance
`0`, with the `WithdrawEvent` carrying `new_balance = 0`. -/
theorem withdraw_full_balance (s : Bank.Pubkey) (b : Nat) :
    Bank.withdraw s ⟨b⟩ b = Except.ok (⟨0⟩, ⟨s, b, 0⟩, Bank.withdrawLog b 0) := by
  simp [Bank.withdraw, Nat.sub_self]

/-- C9. `initialize` always succeeds (the core originates no failure) and
sets the account balance to `0`. -/
theorem initialize_account_zero (acct : Bank.BankAccount) :
    Bank.initialize_account acct = Except.ok (⟨0⟩, Bank.initLog) := by
  rfl

/-- C10. When `b + a` stays within `u64`, `deposit a` then `withdraw a`
both succeed and restore the balance to exactly `b`. -/
theorem deposit_withdraw_roundtrip (s : Bank.Pubkey) (b a : Nat)
    (h : b + a ≤ Bank.U64_MOD - 1) :
    Bank.deposit s ⟨b⟩ a =
      Except.ok (⟨b + a⟩, ⟨s, a, b + a⟩, Bank.depositLog a (b + a))
    ∧ Bank.withdraw s ⟨b + a⟩ a =
      Except.ok (⟨b⟩, ⟨s, a, b⟩, Bank.withdrawLog a b) := by
  have hlt : b + a < Bank.U64_MOD :=
    lt_of_le_of_lt h (by norm_num [Bank.U64_MOD])
  have hge : ¬ b + a < a := by omega
  constructor
  · simp [Bank.deposit, Nat.mod_eq_of_lt hlt]
  · simp [Bank.withdraw, hge, Nat.add_sub_cancel]

/-- C10 witness: signer `7`, balance `5`, amount `3`. -/
theorem deposit_withdraw_roundtrip_witness :
    Bank.deposit 7 ⟨5⟩ 3 = Except.ok (⟨8⟩, ⟨7, 3, 8⟩, Bank.depositLog 3 8)
    ∧ Bank.withdraw 7 ⟨8⟩ 3 = Except.ok (⟨5⟩, ⟨7, 3, 5⟩, Bank.withdrawLog 3 5) :=
  deposit_withdraw_roundtrip 7 5 3 (by norm_num [Bank.U64_MOD])

end Bank
